import Mathlib

/-!
Verification of the `AnchoredPopoverComponent` custom element
(`src/assets/anchored-popover.js`).

The widget resolves two refs at attachment (`popover`, `trigger`), writes
four CSS custom properties (`--anchor-top`, `--anchor-right`,
`--anchor-bottom`, `--anchor-left`) onto the popover from the trigger's
bounding rectangle and the viewport size, installs a `beforetoggle`
listener on the popover that recomputes the position and attaches or
detaches a debounced `resize` listener on `window`, and removes that
listener in `disconnectedCallback`.

Numbers are modelled as integers (viewport pixel coordinates); the
`debounce` and `requestIdleCallback` utilities imported from the theme
utilities module are not part of this repository and are modelled from the
specification where so marked.
-/

namespace AnchoredPopover

/-- Bounding rectangle of the trigger element in viewport coordinates, as
returned by `trigger.getBoundingClientRect()`. -/
structure Rect where
  top : Int
  right : Int
  bottom : Int
  left : Int
  deriving DecidableEq

/-- Viewport size: `window.innerWidth` and `window.innerHeight`. -/
structure Viewport where
  innerWidth : Int
  innerHeight : Int
  deriving DecidableEq

/-- The layout environment current at the moment a handler runs: the
trigger's bounding rectangle and the viewport size. -/
structure Env where
  rect : Rect
  viewport : Viewport
  deriving DecidableEq

/-- The four CSS custom properties the widget writes on the popover
element; `none` means the property has not been set. -/
structure PopoverStyle where
  anchorTop : Option Int
  anchorRight : Option Int
  anchorBottom : Option Int
  anchorLeft : Option Int
  deriving DecidableEq

/-- The popover element: its inline anchor properties and its open/closed
disclosure state (what `popover.matches` reports for the open selector). -/
structure PopoverEl where
  style : PopoverStyle
  isOpen : Bool
  deriving DecidableEq

/-- The widget's state: the two refs resolved once at attachment
(`this.refs.popover` and `this.refs.trigger`), the current
`data-close-on-resize` dataset entry (`none` when the attribute is
absent), and whether the debounced resize listener is currently registered
on `window`. -/
structure WidgetState where
  popover : Option PopoverEl
  hasTrigger : Bool
  closeOnResize : Option String
  resizeAttached : Bool
  deriving DecidableEq

/-- JavaScript truthiness of `this.dataset.closeOnResize`: `undefined`
(attribute absent) and the empty string are falsy; every other string is
truthy. -/
def truthy : Option String → Bool
  | none => false
  | some s => s ≠ ""

/-- `#updatePosition` (lines 29-38): return without doing anything if
either ref is missing; otherwise read the trigger's bounding rectangle and
write the four anchor properties onto the popover. -/
def updatePosition (env : Env) (w : WidgetState) : WidgetState :=
  match w.popover with
  | none => w
  | some p =>
    if w.hasTrigger then
      { w with popover := some { p with style :=
          { anchorTop := some env.rect.top
            anchorRight := some (env.viewport.innerWidth - env.rect.right)
            anchorBottom := some (env.viewport.innerHeight - env.rect.bottom)
            anchorLeft := some env.rect.left } } }
    else w

/-- Whether the popover currently reports the open disclosure state. -/
def popoverOpen (w : WidgetState) : Bool :=
  match w.popover with
  | none => false
  | some p => p.isOpen

/-- The inline anchor properties currently on the popover, when the
popover ref exists. -/
def styleOf (w : WidgetState) : Option PopoverStyle :=
  w.popover.map (fun p => p.style)

/-- The platform changing the popover's disclosure state. -/
def setOpen (b : Bool) (w : WidgetState) : WidgetState :=
  match w.popover with
  | none => w
  | some p => { w with popover := some { p with isOpen := b } }

/-- The `beforetoggle` listener installed by `connectedCallback`
(lines 59-63): it calls `#updatePosition` on every notification, then adds
the `resize` listener on `window` when the new state is `open` and removes
it for any other new state. -/
def beforetoggleHandler (env : Env) (newOpen : Bool) (w : WidgetState) : WidgetState :=
  let w1 := updatePosition env w
  { w1 with resizeAttached := newOpen }

/-- A disclosure transition of the popover: the `beforetoggle` event runs
the handler first (the handler exists exactly when the popover ref was
present at attachment, because of the optional chaining on line 59), then
the popover's disclosure state changes. With no popover ref there is no
popover to toggle and nothing happens. -/
def toggleStep (env : Env) (newOpen : Bool) (w : WidgetState) : WidgetState :=
  match w.popover with
  | none => w
  | some _ => setOpen newOpen (beforetoggleHandler env newOpen w)

/-- `popover.hidePopover()` (line 48): dispatches `beforetoggle` with new
state `closed`, then the popover closes. -/
def hidePopover (env : Env) (w : WidgetState) : WidgetState :=
  toggleStep env false w

/-- The body of the debounced `#resizeListener` (lines 44-51): when the
dataset entry is truthy and the popover ref exists and is open, call
`hidePopover`. The second component counts close actions performed. -/
def resizeFire (env : Env) (w : WidgetState) : WidgetState × Nat :=
  if truthy w.closeOnResize then
    match w.popover with
    | none => (w, 0)
    | some p => if p.isOpen then (hidePopover env w, 1) else (w, 0)
  else (w, 0)

/-- Modelled from the spec: the state of the `debounce` utility imported
from the theme utilities module (not part of this repository). Per the
spec it suppresses all but the last of a rapid sequence of invocations
within a fixed 100-millisecond window: each invocation (re)schedules the
wrapped callback for 100 ms later, and the callback runs once when that
deadline passes with no further invocation. `pending` holds the currently
scheduled deadline, if any. -/
structure SysState where
  widget : WidgetState
  pending : Option Nat
  deriving DecidableEq

/-- An observable event of the widget's environment, each stamped with the
moment it occurs and the layout environment current at that moment:
a `resize` dispatch on `window`; `flush`, the mere passage of time up to a
moment; a disclosure `toggle` of the popover; `idle`, the idle-deferred
initial recompute scheduled by `connectedCallback` (line 64) running;
`setFlag`, a rewrite of the `data-close-on-resize` dataset entry; and
`disconnect`, the `disconnectedCallback` teardown. -/
inductive TimedEvent where
  | resize (t : Nat) (env : Env)
  | flush (t : Nat) (env : Env)
  | toggle (t : Nat) (newOpen : Bool) (env : Env)
  | idle (t : Nat) (env : Env)
  | setFlag (t : Nat) (v : Option String) (env : Env)
  | disconnect (t : Nat) (env : Env)
  deriving DecidableEq

/-- The moment an event occurs. -/
def eventTime : TimedEvent → Nat
  | .resize t _ => t
  | .flush t _ => t
  | .toggle t _ _ => t
  | .idle t _ => t
  | .setFlag t _ _ => t
  | .disconnect t _ => t

/-- The layout environment current when an event occurs. -/
def eventEnv : TimedEvent → Env
  | .resize _ env => env
  | .flush _ env => env
  | .toggle _ _ env => env
  | .idle _ env => env
  | .setFlag _ _ env => env
  | .disconnect _ env => env

/-- Modelled from the spec: firing of the debounce deadline. When a moment
at or past the scheduled deadline is observed, the debounced callback body
has run once in the meantime and the deadline is cleared. -/
def fireIfDue (t : Nat) (env : Env) (s : SysState) : SysState × Nat :=
  match s.pending with
  | none => (s, 0)
  | some tf =>
    if tf ≤ t then
      let r := resizeFire env s.widget
      (⟨r.1, none⟩, r.2)
    else (s, 0)

/-- One event step: any debounce deadline that has already passed fires
first, then the event itself is handled. A `resize` dispatch reaches the
debounced listener only while it is attached to `window`, and then
(re)schedules the deadline 100 ms out; `toggle` runs the disclosure
transition; `idle` runs `#updatePosition`; `setFlag` rewrites the dataset
entry; `disconnect` removes the `resize` listener from `window` (line 74)
without cancelling any scheduled debounce deadline. The second component
counts close actions performed. -/
def timedStep (s : SysState) (e : TimedEvent) : SysState × Nat :=
  let p := fireIfDue (eventTime e) (eventEnv e) s
  match e with
  | .resize t _ =>
    (if p.1.widget.resizeAttached then ⟨p.1.widget, some (t + 100)⟩ else p.1, p.2)
  | .flush _ _ => p
  | .toggle _ b env => (⟨toggleStep env b p.1.widget, p.1.pending⟩, p.2)
  | .idle _ env => (⟨updatePosition env p.1.widget, p.1.pending⟩, p.2)
  | .setFlag _ v _ => (⟨{ p.1.widget with closeOnResize := v }, p.1.pending⟩, p.2)
  | .disconnect _ _ => (⟨{ p.1.widget with resizeAttached := false }, p.1.pending⟩, p.2)

/-- Run a sequence of events, accumulating the number of close actions. -/
def runTrace (s : SysState) : List TimedEvent → SysState × Nat
  | [] => (s, 0)
  | e :: es =>
    let p := timedStep s e
    let q := runTrace p.1 es
    (q.1, p.2 + q.2)

/-- The state right after `connectedCallback` (lines 56-67): refs
resolved, the `beforetoggle` handler installed exactly when the popover
ref exists, the `resize` listener not yet attached, no debounce deadline
scheduled. -/
def connectInit (po : Option PopoverEl) (ht : Bool) (flag : Option String) : SysState :=
  ⟨⟨po, ht, flag, false⟩, none⟩

/-- States reachable from some attachment state by any event sequence. -/
inductive Reachable : SysState → Prop
  | init (po : Option PopoverEl) (ht : Bool) (flag : Option String) :
      Reachable (connectInit po ht flag)
  | step (s : SysState) (e : TimedEvent) : Reachable s → Reachable (timedStep s e).1

/-- Whether an event is a disclosure transition to the open state. -/
def isOpenToggle : TimedEvent → Bool
  | .toggle _ true _ => true
  | _ => false

/-- Whether an event is a `resize` dispatch or mere passage of time. -/
def isResizeOrFlush : TimedEvent → Bool
  | .resize _ _ => true
  | .flush _ _ => true
  | _ => false

/-- Whether an event rewrites the dataset entry. -/
def isSetFlag : TimedEvent → Bool
  | .setFlag _ _ _ => true
  | _ => false

/-! ### Basic facts about the position recompute -/

/-- `#updatePosition` never touches the listener registration. -/
theorem updatePosition_resizeAttached (env : Env) (w : WidgetState) :
    (updatePosition env w).resizeAttached = w.resizeAttached := by
  unfold updatePosition
  split
  · rfl
  · split <;> rfl

/-- `#updatePosition` never touches the popover's disclosure state. -/
theorem updatePosition_popoverOpen (env : Env) (w : WidgetState) :
    popoverOpen (updatePosition env w) = popoverOpen w := by
  unfold updatePosition
  rcases hpo : w.popover with _ | p
  · rfl
  · by_cases ht : w.hasTrigger <;> simp [ht, popoverOpen, hpo]

/-- `#updatePosition` keeps the popover ref present or absent as it was. -/
theorem updatePosition_popover_isSome (env : Env) (w : WidgetState) :
    (updatePosition env w).popover.isSome = w.popover.isSome := by
  unfold updatePosition
  rcases hpo : w.popover with _ | p
  · rw [hpo]
  · by_cases ht : w.hasTrigger <;> simp [ht, hpo]

/-- `#updatePosition` never touches the trigger ref. -/
theorem updatePosition_hasTrigger (env : Env) (w : WidgetState) :
    (updatePosition env w).hasTrigger = w.hasTrigger := by
  unfold updatePosition
  split
  · rfl
  · split <;> rfl

/-- `#updatePosition` never touches the dataset entry. -/
theorem updatePosition_closeOnResize (env : Env) (w : WidgetState) :
    (updatePosition env w).closeOnResize = w.closeOnResize := by
  unfold updatePosition
  split
  · rfl
  · split <;> rfl

/-- Claim C1: with both refs present, the recompute writes exactly
distance-from-top = R.top, distance-from-right = W − R.right,
distance-from-bottom = H − R.bottom and distance-from-left = R.left onto
the popover. -/
theorem updatePosition_exact (env : Env) (w : WidgetState)
    (hp : w.popover.isSome = true) (ht : w.hasTrigger = true) :
    styleOf (updatePosition env w) =
      some ⟨some env.rect.top,
            some (env.viewport.innerWidth - env.rect.right),
            some (env.viewport.innerHeight - env.rect.bottom),
            some env.rect.left⟩ := by
  rcases hpo : w.popover with _ | p
  · rw [hpo] at hp; simp at hp
  · simp [updatePosition, styleOf, hpo, ht]

/-- Claim C1 witness: the spec's concrete scenario, trigger rectangle
top 50, left 20, right 120, bottom 80 in a 1000 × 800 viewport yields
offsets 50, 880, 720, 20. -/
theorem updatePosition_exact_witness :
    styleOf (updatePosition ⟨⟨50, 120, 80, 20⟩, ⟨1000, 800⟩⟩
        ⟨some ⟨⟨none, none, none, none⟩, false⟩, true, none, false⟩) =
      some ⟨some 50, some 880, some 720, some 20⟩ := by
  have h := updatePosition_exact ⟨⟨50, 120, 80, 20⟩, ⟨1000, 800⟩⟩
    ⟨some ⟨⟨none, none, none, none⟩, false⟩, true, none, false⟩ rfl rfl
  exact h.trans (by decide)

/-- Claim C4: with either ref missing, the recompute is a complete no-op
on the widget's state (in particular it mutates no layout property), and
being a total function it raises nothing. -/
theorem updatePosition_missing_ref_noop (env : Env) (w : WidgetState)
    (h : w.popover = none ∨ w.hasTrigger = false) :
    updatePosition env w = w := by
  unfold updatePosition
  rcases h with h | h
  · rw [h]
  · rcases hpo : w.popover with _ | p
    · rfl
    · rw [h]; rfl

/-- Claim C4 witness: a widget with a popover ref but no trigger ref is
left untouched by the recompute. -/
theorem updatePosition_missing_ref_noop_witness :
    updatePosition ⟨⟨50, 120, 80, 20⟩, ⟨1000, 800⟩⟩
        ⟨some ⟨⟨none, none, none, none⟩, true⟩, false, none, false⟩ =
      ⟨some ⟨⟨none, none, none, none⟩, true⟩, false, none, false⟩ :=
  updatePosition_missing_ref_noop ⟨⟨50, 120, 80, 20⟩, ⟨1000, 800⟩⟩
    ⟨some ⟨⟨none, none, none, none⟩, true⟩, false, none, false⟩ (Or.inr rfl)

/-- Claim C8: with the trigger rectangle and viewport unchanged, running
the recompute a second time reproduces exactly the state the first run
produced, so both runs write identical values for all four layout
properties. -/
theorem updatePosition_idempotent (env : Env) (w : WidgetState) :
    updatePosition env (updatePosition env w) = updatePosition env w := by
  rcases hpo : w.popover with _ | p
  · have h1 : updatePosition env w = w := by unfold updatePosition; rw [hpo]
    simp only [h1]
  · by_cases ht : w.hasTrigger
    · simp [updatePosition, hpo, ht]
    · simp [updatePosition, hpo, ht]

/-! ### The beforetoggle handler -/

/-- With the popover ref present, a disclosure transition leaves the
listener registration and the disclosure state equal to the new state. -/
theorem toggleStep_attached_open (env : Env) (b : Bool) (w : WidgetState)
    (hp : w.popover.isSome = true) :
    (toggleStep env b w).resizeAttached = b ∧ popoverOpen (toggleStep env b w) = b := by
  rcases hpo : w.popover with _ | p
  · rw [hpo] at hp; simp at hp
  · by_cases ht : w.hasTrigger <;>
      simp [toggleStep, beforetoggleHandler, setOpen, updatePosition, popoverOpen, hpo, ht]

/-- A disclosure transition never creates or removes refs. -/
theorem toggleStep_refs (env : Env) (b : Bool) (w : WidgetState) :
    (toggleStep env b w).popover.isSome = w.popover.isSome ∧
    (toggleStep env b w).hasTrigger = w.hasTrigger ∧
    (toggleStep env b w).closeOnResize = w.closeOnResize := by
  rcases hpo : w.popover with _ | p
  · simp [toggleStep, hpo]
  · by_cases ht : w.hasTrigger <;>
      simp [toggleStep, beforetoggleHandler, setOpen, updatePosition, hpo, ht]

/-- With both refs present, a disclosure transition writes the four
recomputed anchor properties. -/
theorem toggleStep_style (env : Env) (b : Bool) (w : WidgetState)
    (hp : w.popover.isSome = true) (ht : w.hasTrigger = true) :
    styleOf (toggleStep env b w) =
      some ⟨some env.rect.top,
            some (env.viewport.innerWidth - env.rect.right),
            some (env.viewport.innerHeight - env.rect.bottom),
            some env.rect.left⟩ := by
  rcases hpo : w.popover with _ | p
  · rw [hpo] at hp; simp at hp
  · simp [toggleStep, beforetoggleHandler, setOpen, updatePosition, styleOf, hpo, ht]

/-- Claim C2 counterexample: a transition to the closed state does not
leave the layout properties alone. Starting from an open popover with no
anchor properties set, handling the close transition writes all four of
them, so the close branch is not merely a listener detach. -/
theorem close_transition_recomputes_cex :
    styleOf (toggleStep ⟨⟨50, 120, 80, 20⟩, ⟨1000, 800⟩⟩ false
        ⟨some ⟨⟨none, none, none, none⟩, true⟩, true, none, true⟩) ≠
      styleOf ⟨some ⟨⟨none, none, none, none⟩, true⟩, true, none, true⟩ := by
  decide

/-- Claim C2 (amended): on every disclosure notification, open or not, the
handler first recomputes position (writing all four layout properties when
both refs are present) and then attaches the resize listener exactly when
the new state is open, detaching it otherwise. -/
theorem toggle_transition_behavior (env : Env) (b : Bool) (w : WidgetState)
    (hp : w.popover.isSome = true) (ht : w.hasTrigger = true) :
    styleOf (toggleStep env b w) =
      some ⟨some env.rect.top,
            some (env.viewport.innerWidth - env.rect.right),
            some (env.viewport.innerHeight - env.rect.bottom),
            some env.rect.left⟩ ∧
    (toggleStep env b w).resizeAttached = b ∧
    popoverOpen (toggleStep env b w) = b := by
  refine ⟨toggleStep_style env b w hp ht, ?_, ?_⟩
  · exact (toggleStep_attached_open env b w hp).1
  · exact (toggleStep_attached_open env b w hp).2

/-- Claim C2 witness: a concrete close transition recomputes the offsets
and detaches the resize listener. -/
theorem toggle_transition_behavior_witness :
    styleOf (toggleStep ⟨⟨5, 30, 40, 10⟩, ⟨200, 100⟩⟩ false
        ⟨some ⟨⟨none, none, none, none⟩, true⟩, true, none, true⟩) =
      some ⟨some 5, some 170, some 60, some 10⟩ ∧
    (toggleStep ⟨⟨5, 30, 40, 10⟩, ⟨200, 100⟩⟩ false
        ⟨some ⟨⟨none, none, none, none⟩, true⟩, true, none, true⟩).resizeAttached = false ∧
    popoverOpen (toggleStep ⟨⟨5, 30, 40, 10⟩, ⟨200, 100⟩⟩ false
        ⟨some ⟨⟨none, none, none, none⟩, true⟩, true, none, true⟩) = false := by
  have h := toggle_transition_behavior ⟨⟨5, 30, 40, 10⟩, ⟨200, 100⟩⟩ false
    ⟨some ⟨⟨none, none, none, none⟩, true⟩, true, none, true⟩ rfl rfl
  exact ⟨h.1.trans (by decide), h.2.1, h.2.2⟩

/-! ### The debounced resize callback and the timed step -/

/-- The debounced callback never creates or removes refs and never
rewrites the dataset entry. -/
theorem resizeFire_refs (env : Env) (w : WidgetState) :
    (resizeFire env w).1.popover.isSome = w.popover.isSome ∧
    (resizeFire env w).1.hasTrigger = w.hasTrigger ∧
    (resizeFire env w).1.closeOnResize = w.closeOnResize := by
  cases hc : truthy w.closeOnResize
  · simp [resizeFire, hc]
  · rcases hpo : w.popover with _ | p
    · simp [resizeFire, hc, hpo]
    · cases ho : p.isOpen
      · simp [resizeFire, hc, hpo, ho]
      · simpa [resizeFire, hidePopover, hc, hpo, ho] using toggleStep_refs env false w

/-- The debounced callback can only detach the resize listener, never
attach it. -/
theorem resizeFire_attached_false (env : Env) (w : WidgetState)
    (hw : w.resizeAttached = false) :
    (resizeFire env w).1.resizeAttached = false := by
  cases hc : truthy w.closeOnResize
  · simpa [resizeFire, hc] using hw
  · rcases hpo : w.popover with _ | p
    · simpa [resizeFire, hc, hpo] using hw
    · cases ho : p.isOpen
      · simpa [resizeFire, hc, hpo, ho] using hw
      · have hp : w.popover.isSome = true := by rw [hpo]; rfl
        simpa [resizeFire, hidePopover, hc, hpo, ho] using
          (toggleStep_attached_open env false w hp).1

/-- Deadline firing never creates or removes refs and never rewrites the
dataset entry. -/
theorem fireIfDue_refs (t : Nat) (env : Env) (s : SysState) :
    (fireIfDue t env s).1.widget.popover.isSome = s.widget.popover.isSome ∧
    (fireIfDue t env s).1.widget.hasTrigger = s.widget.hasTrigger ∧
    (fireIfDue t env s).1.widget.closeOnResize = s.widget.closeOnResize := by
  unfold fireIfDue
  rcases hp : s.pending with _ | tf
  · exact ⟨rfl, rfl, rfl⟩
  · by_cases htf : tf ≤ t
    · simpa [htf] using resizeFire_refs env s.widget
    · simp [htf]

/-- Deadline firing can only detach the resize listener, never attach it. -/
theorem fireIfDue_attached_false (t : Nat) (env : Env) (s : SysState)
    (hw : s.widget.resizeAttached = false) :
    (fireIfDue t env s).1.widget.resizeAttached = false := by
  unfold fireIfDue
  rcases hp : s.pending with _ | tf
  · exact hw
  · by_cases htf : tf ≤ t
    · simpa [htf] using resizeFire_attached_false env s.widget hw
    · simpa [htf] using hw

/-- Claim C3: with both refs present, any event step that ends with the
resize listener attached was a disclosure transition to the open state,
and in the very state in which the listener is first attached the
recompute of that same transition is already fully applied — all four
layout properties hold the values computed from that moment's trigger
rectangle and viewport; moreover no event other than an open transition
can attach the listener. Hence no resize-listener firing can observe the
popover before the open transition's recompute has completed. -/
theorem recompute_before_attach :
    (∀ (s : SysState) (t : Nat) (env : Env) (b : Bool),
        s.widget.popover.isSome = true → s.widget.hasTrigger = true →
        (timedStep s (.toggle t b env)).1.widget.resizeAttached = true →
        b = true ∧
        styleOf (timedStep s (.toggle t b env)).1.widget =
          some ⟨some env.rect.top,
                some (env.viewport.innerWidth - env.rect.right),
                some (env.viewport.innerHeight - env.rect.bottom),
                some env.rect.left⟩) ∧
    (∀ (s : SysState) (e : TimedEvent), isOpenToggle e = false →
        s.widget.resizeAttached = false →
        (timedStep s e).1.widget.resizeAttached = false) := by
  constructor
  · intro s t env b hp ht hat
    have w1refs := fireIfDue_refs t env s
    have hp1 : (fireIfDue t env s).1.widget.popover.isSome = true := by
      rw [w1refs.1]; exact hp
    have ht1 : (fireIfDue t env s).1.widget.hasTrigger = true := by
      rw [w1refs.2.1]; exact ht
    have hstep : (timedStep s (.toggle t b env)).1.widget =
        toggleStep env b (fireIfDue t env s).1.widget := rfl
    rw [hstep] at hat
    have h1 := (toggleStep_attached_open env b (fireIfDue t env s).1.widget hp1).1
    rw [h1] at hat
    refine ⟨hat, ?_⟩
    rw [hstep]
    have := toggleStep_style env b (fireIfDue t env s).1.widget hp1 ht1
    exact this
  · intro s e he hw
    cases e with
    | resize t env =>
      have h := fireIfDue_attached_false t env s hw
      simp [timedStep, eventTime, eventEnv, h]
    | flush t env =>
      exact fireIfDue_attached_false t env s hw
    | toggle t b env =>
      have h := fireIfDue_attached_false t env s hw
      have hb : b = false := by
        cases b with
        | false => rfl
        | true => simp [isOpenToggle] at he
      subst hb
      have hstep : (timedStep s (.toggle t false env)).1.widget =
          toggleStep env false (fireIfDue t env s).1.widget := rfl
      rw [hstep]
      rcases hpo : (fireIfDue t env s).1.widget.popover with _ | p
      · simpa [toggleStep, hpo] using h
      · exact (toggleStep_attached_open env false _ (by rw [hpo]; rfl)).1
    | idle t env =>
      have h := fireIfDue_attached_false t env s hw
      have hstep : (timedStep s (.idle t env)).1.widget =
          updatePosition env (fireIfDue t env s).1.widget := rfl
      rw [hstep, updatePosition_resizeAttached]
      exact h
    | setFlag t v env =>
      exact fireIfDue_attached_false t env s hw
    | disconnect t env =>
      rfl

/-- Claim C3 witness: at a concrete open transition the resulting state
has the listener attached and the four recomputed offsets in place. -/
theorem recompute_before_attach_witness :
    styleOf (timedStep ⟨⟨some ⟨⟨none, none, none, none⟩, false⟩, true, none, false⟩, none⟩
        (.toggle 0 true ⟨⟨5, 30, 40, 10⟩, ⟨200, 100⟩⟩)).1.widget =
      some ⟨some 5, some 170, some 60, some 10⟩ :=
  ((recompute_before_attach).1
      ⟨⟨some ⟨⟨none, none, none, none⟩, false⟩, true, none, false⟩, none⟩
      0 ⟨⟨5, 30, 40, 10⟩, ⟨200, 100⟩⟩ true rfl rfl (by decide)).2.trans (by decide)

/-! ### The listener-registration invariant -/

/-- The debounced callback preserves the invariant that the resize
listener is registered only while the popover is open. -/
theorem resizeFire_inv (env : Env) (w : WidgetState)
    (h : w.resizeAttached = true → popoverOpen w = true) :
    (resizeFire env w).1.resizeAttached = true → popoverOpen (resizeFire env w).1 = true := by
  cases hc : truthy w.closeOnResize
  · simpa [resizeFire, hc] using h
  · rcases hpo : w.popover with _ | p
    · simpa [resizeFire, hc, hpo] using h
    · cases ho : p.isOpen
      · simpa [resizeFire, hc, hpo, ho] using h
      · have hp : w.popover.isSome = true := by rw [hpo]; rfl
        have ha := (toggleStep_attached_open env false w hp).1
        intro hat
        simp only [resizeFire, hidePopover, hc, hpo, ho, if_true] at hat
        rw [ha] at hat
        simp at hat

/-- Deadline firing preserves the invariant that the resize listener is
registered only while the popover is open. -/
theorem fireIfDue_inv (t : Nat) (env : Env) (s : SysState)
    (h : s.widget.resizeAttached = true → popoverOpen s.widget = true) :
    (fireIfDue t env s).1.widget.resizeAttached = true →
      popoverOpen (fireIfDue t env s).1.widget = true := by
  unfold fireIfDue
  rcases hp : s.pending with _ | tf
  · exact h
  · by_cases htf : tf ≤ t
    · simpa [htf] using resizeFire_inv env s.widget h
    · simpa [htf] using h

/-- A `resize` dispatch changes the widget only through a due deadline
firing; the dispatch itself only reschedules the deadline. -/
theorem timedStep_resize_widget (s : SysState) (t : Nat) (env : Env) :
    (timedStep s (.resize t env)).1.widget = (fireIfDue t env s).1.widget := by
  simp only [timedStep]
  split <;> rfl

/-- Every event step preserves the invariant that the resize listener is
registered only while the popover is open. -/
theorem timedStep_inv (s : SysState) (e : TimedEvent)
    (h : s.widget.resizeAttached = true → popoverOpen s.widget = true) :
    (timedStep s e).1.widget.resizeAttached = true →
      popoverOpen (timedStep s e).1.widget = true := by
  cases e with
  | resize t env =>
    rw [timedStep_resize_widget]
    exact fireIfDue_inv t env s h
  | flush t env =>
    exact fireIfDue_inv t env s h
  | toggle t b env =>
    have hstep : (timedStep s (.toggle t b env)).1.widget =
        toggleStep env b (fireIfDue t env s).1.widget := rfl
    rw [hstep]
    rcases hpo : (fireIfDue t env s).1.widget.popover with _ | p
    · simpa [toggleStep, hpo] using fireIfDue_inv t env s h
    · have hp : (fireIfDue t env s).1.widget.popover.isSome = true := by rw [hpo]; rfl
      have ha := (toggleStep_attached_open env b (fireIfDue t env s).1.widget hp).1
      have ho := (toggleStep_attached_open env b (fireIfDue t env s).1.widget hp).2
      intro hat
      rw [ha] at hat
      rw [ho]
      exact hat
  | idle t env =>
    have hstep : (timedStep s (.idle t env)).1.widget =
        updatePosition env (fireIfDue t env s).1.widget := rfl
    rw [hstep, updatePosition_resizeAttached, updatePosition_popoverOpen]
    exact fireIfDue_inv t env s h
  | setFlag t v env =>
    exact fireIfDue_inv t env s h
  | disconnect t env =>
    intro hat
    simp [timedStep, eventTime, eventEnv] at hat

/-- Claim C7: in every reachable state the resize listener is registered
on `window` only while the popover is open; `disconnectedCallback`
removes the listener unconditionally, whatever the disclosure state; and
once the listener is detached, dispatching a `resize` event is
indistinguishable from the mere passage of time — the dispatch itself has
no effect. -/
theorem listener_only_while_open :
    (∀ s : SysState, Reachable s →
        s.widget.resizeAttached = true → popoverOpen s.widget = true) ∧
    (∀ (s : SysState) (t : Nat) (env : Env),
        (timedStep s (.disconnect t env)).1.widget.resizeAttached = false) ∧
    (∀ (s : SysState) (t : Nat) (env : Env),
        s.widget.resizeAttached = false →
        timedStep s (.resize t env) = timedStep s (.flush t env)) := by
  refine ⟨?_, ?_, ?_⟩
  · intro s hs
    induction hs with
    | init po ht flag => intro hat; simp [connectInit] at hat
    | step s e hs ih => exact timedStep_inv s e ih
  · intro s t env
    rfl
  · intro s t env hw
    have h := fireIfDue_attached_false t env s hw
    simp [timedStep, eventTime, eventEnv, h]

/-- Claim C7 witness: the state reached by opening the popover right after
attachment has the listener attached, and the invariant instance confirms
the popover is indeed open there. -/
theorem listener_only_while_open_witness :
    popoverOpen (timedStep (connectInit (some ⟨⟨none, none, none, none⟩, false⟩) true none)
        (.toggle 0 true ⟨⟨0, 0, 0, 0⟩, ⟨0, 0⟩⟩)).1.widget = true :=
  (listener_only_while_open).1
    (timedStep (connectInit (some ⟨⟨none, none, none, none⟩, false⟩) true none)
        (.toggle 0 true ⟨⟨0, 0, 0, 0⟩, ⟨0, 0⟩⟩)).1
    (Reachable.step _ _ (Reachable.init _ _ _)) (by decide)

/-! ### Resize bursts and the debounce window -/

/-- Unfolding one step of a trace run. -/
theorem runTrace_cons (s : SysState) (e : TimedEvent) (es : List TimedEvent) :
    runTrace s (e :: es) =
      ((runTrace (timedStep s e).1 es).1,
        (timedStep s e).2 + (runTrace (timedStep s e).1 es).2) := rfl

/-- Splitting a trace run at a concatenation point. -/
theorem runTrace_append (s : SysState) (es fs : List TimedEvent) :
    runTrace s (es ++ fs) =
      ((runTrace (runTrace s es).1 fs).1,
        (runTrace s es).2 + (runTrace (runTrace s es).1 fs).2) := by
  induction es generalizing s with
  | nil => simp [runTrace]
  | cons e es ih => simp [runTrace_cons, ih, Nat.add_assoc]

/-- A `resize` dispatch arriving before the scheduled deadline does not
fire the callback; it only replaces the deadline (the listener being
attached). -/
theorem timedStep_resize_noFire (w : WidgetState) (env : Env) (a b : Nat)
    (hw : w.resizeAttached = true) (hb : b < a + 100) :
    timedStep ⟨w, some (a + 100)⟩ (.resize b env) = (⟨w, some (b + 100)⟩, 0) := by
  have hnb : ¬ (a + 100 ≤ b) := by omega
  simp [timedStep, eventTime, eventEnv, fireIfDue, hnb, hw]

/-- Inside a burst whose consecutive dispatches stay within the 100 ms
window, the widget never changes and no close happens: only the deadline
slides to 100 ms past the last dispatch. -/
theorem burst_aux (w : WidgetState) (env : Env) (hw : w.resizeAttached = true)
    (ts : List Nat) :
    ∀ a : Nat, List.Chain' (fun x y => x ≤ y ∧ y < x + 100) (a :: ts) →
      runTrace ⟨w, some (a + 100)⟩ (ts.map (fun u => TimedEvent.resize u env)) =
        (⟨w, some ((a :: ts).getLast (List.cons_ne_nil a ts) + 100)⟩, 0) := by
  induction ts with
  | nil => intro a _; simp [runTrace]
  | cons b ts ih =>
    intro a hchain
    rcases List.chain'_cons.mp hchain with ⟨⟨hab, hblt⟩, hchain2⟩
    simp only [List.map_cons, runTrace_cons, timedStep_resize_noFire w env a b hw hblt,
      ih b hchain2]
    simp [List.getLast_cons]

/-- With the listener detached, `resize` dispatches never reach the
debounced listener and nothing at all happens. -/
theorem burst_noop (w : WidgetState) (env : Env) (hw : w.resizeAttached = false)
    (ts : List Nat) :
    runTrace ⟨w, none⟩ (ts.map (fun u => TimedEvent.resize u env)) = (⟨w, none⟩, 0) := by
  induction ts with
  | nil => rfl
  | cons b ts ih =>
    have h1 : timedStep ⟨w, none⟩ (.resize b env) = (⟨w, none⟩, 0) := by
      simp [timedStep, eventTime, eventEnv, fireIfDue, hw]
    simp only [List.map_cons, runTrace_cons, h1]
    simp [ih]

/-- At most one close action per debounced callback run. -/
theorem resizeFire_count_le_one (env : Env) (w : WidgetState) :
    (resizeFire env w).2 ≤ 1 := by
  cases hc : truthy w.closeOnResize
  · simp [resizeFire, hc]
  · rcases hpo : w.popover with _ | p
    · simp [resizeFire, hc, hpo]
    · cases ho : p.isOpen <;> simp [resizeFire, hc, hpo, ho]

/-- Claim C5: starting with no scheduled deadline, a burst of N ≥ 1
`resize` dispatches whose consecutive arrivals fall within the 100 ms
debounce window, followed by enough time for the deadline to pass, ends
in exactly the state (and with exactly the close count) that the last
dispatch of the burst alone would produce — earlier dispatches have no
effect — and performs at most one close action in total. -/
theorem resize_burst_at_most_one_close (w : WidgetState) (env : Env)
    (ts : List Nat) (hne : ts ≠ [])
    (hchain : List.Chain' (fun x y => x ≤ y ∧ y < x + 100) ts)
    (T : Nat) (hT : ts.getLast hne + 100 ≤ T) :
    runTrace ⟨w, none⟩
        (ts.map (fun u => TimedEvent.resize u env) ++ [TimedEvent.flush T env]) =
      runTrace ⟨w, none⟩ [TimedEvent.resize (ts.getLast hne) env, TimedEvent.flush T env] ∧
    (runTrace ⟨w, none⟩
        (ts.map (fun u => TimedEvent.resize u env) ++ [TimedEvent.flush T env])).2 ≤ 1 := by
  obtain ⟨t1, rest, rfl⟩ := List.exists_cons_of_ne_nil hne
  have hgl : (t1 :: rest).getLast (List.cons_ne_nil t1 rest) = (t1 :: rest).getLast hne := rfl
  by_cases hw : w.resizeAttached = true
  · have hstep1 : timedStep ⟨w, none⟩ (.resize t1 env) = (⟨w, some (t1 + 100)⟩, 0) := by
      simp [timedStep, eventTime, eventEnv, fireIfDue, hw]
    have hstepL : timedStep ⟨w, none⟩ (.resize ((t1 :: rest).getLast hne) env) =
        (⟨w, some ((t1 :: rest).getLast hne + 100)⟩, 0) := by
      simp [timedStep, eventTime, eventEnv, fireIfDue, hw]
    have hflush : timedStep ⟨w, some ((t1 :: rest).getLast hne + 100)⟩ (.flush T env) =
        (⟨(resizeFire env w).1, none⟩, (resizeFire env w).2) := by
      simp [timedStep, eventTime, eventEnv, fireIfDue, hT]
    have hburst := burst_aux w env hw rest t1 hchain
    rw [hgl] at hburst
    constructor
    · rw [List.map_cons, List.cons_append, runTrace_cons, hstep1, runTrace_append, hburst]
      simp only [runTrace_cons, runTrace, hflush, hstepL]
      simp
    · rw [List.map_cons, List.cons_append, runTrace_cons, hstep1, runTrace_append, hburst]
      simp only [runTrace_cons, runTrace, hflush]
      simpa using resizeFire_count_le_one env w
  · have hw2 : w.resizeAttached = false := by
      cases h : w.resizeAttached
      · rfl
      · exact absurd h hw
    have hnoop := burst_noop w env hw2 (t1 :: rest)
    have hstepL : timedStep ⟨w, none⟩ (.resize ((t1 :: rest).getLast hne) env) =
        (⟨w, none⟩, 0) := by
      simp [timedStep, eventTime, eventEnv, fireIfDue, hw2]
    have hflush : timedStep ⟨w, none⟩ (.flush T env) = (⟨w, none⟩, 0) := by
      simp [timedStep, eventTime, eventEnv, fireIfDue]
    constructor
    · rw [runTrace_append, hnoop]
      simp only [runTrace_cons, runTrace, hflush, hstepL]
    · rw [runTrace_append, hnoop]
      simp only [runTrace_cons, runTrace, hflush]
      simp

/-- Claim C5 witness: three dispatches at 0, 50 and 90 ms with the flag
truthy and the popover open produce exactly the outcome of the dispatch
at 90 ms alone, with at most one close. -/
theorem resize_burst_at_most_one_close_witness :
    (runTrace ⟨⟨some ⟨⟨none, none, none, none⟩, true⟩, true, some "1", true⟩, none⟩
        ([0, 50, 90].map (fun u => TimedEvent.resize u ⟨⟨0, 0, 0, 0⟩, ⟨0, 0⟩⟩) ++
          [TimedEvent.flush 200 ⟨⟨0, 0, 0, 0⟩, ⟨0, 0⟩⟩])).2 ≤ 1 :=
  (resize_burst_at_most_one_close ⟨some ⟨⟨none, none, none, none⟩, true⟩, true, some "1", true⟩
      ⟨⟨0, 0, 0, 0⟩, ⟨0, 0⟩⟩ [0, 50, 90] (by decide)
      (by
        rw [List.chain'_cons, List.chain'_cons]
        refine ⟨⟨?_, ?_⟩, ⟨?_, ?_⟩, List.chain'_singleton _⟩ <;> norm_num)
      200 (by decide)).2

/-! ### The configuration flag -/

/-- With a falsy dataset entry the debounced callback does nothing. -/
theorem resizeFire_flag_falsy (env : Env) (w : WidgetState)
    (h : truthy w.closeOnResize = false) : resizeFire env w = (w, 0) := by
  simp [resizeFire, h]

/-- With the attribute absent, deadline firing leaves the widget alone and
closes nothing. -/
theorem fireIfDue_flag_unset (t : Nat) (env : Env) (s : SysState)
    (h : s.widget.closeOnResize = none) :
    (fireIfDue t env s).1.widget = s.widget ∧ (fireIfDue t env s).2 = 0 := by
  have hf : truthy s.widget.closeOnResize = false := by rw [h]; rfl
  unfold fireIfDue
  rcases hp : s.pending with _ | tf
  · exact ⟨rfl, rfl⟩
  · by_cases htf : tf ≤ t
    · simp [htf, resizeFire_flag_falsy env s.widget hf]
    · simp [htf]

/-- Claim C6: with the `data-close-on-resize` attribute unset, any
sequence of `resize` dispatches and passage of time — whatever the
disclosure state — never closes the popover and leaves the widget
completely unchanged. -/
theorem no_close_when_flag_unset (s : SysState) (es : List TimedEvent)
    (hflag : s.widget.closeOnResize = none)
    (hes : ∀ e ∈ es, isResizeOrFlush e = true) :
    (runTrace s es).1.widget = s.widget ∧ (runTrace s es).2 = 0 := by
  induction es generalizing s with
  | nil => exact ⟨rfl, rfl⟩
  | cons e es ih =>
    have he := hes e (by simp)
    have hstep : (timedStep s e).1.widget = s.widget ∧ (timedStep s e).2 = 0 := by
      cases e with
      | resize t env =>
        have hf := fireIfDue_flag_unset t env s hflag
        exact ⟨(timedStep_resize_widget s t env).trans hf.1, hf.2⟩
      | flush t env => exact fireIfDue_flag_unset t env s hflag
      | toggle t b env => simp [isResizeOrFlush] at he
      | idle t env => simp [isResizeOrFlush] at he
      | setFlag t v env => simp [isResizeOrFlush] at he
      | disconnect t env => simp [isResizeOrFlush] at he
    have hflag2 : (timedStep s e).1.widget.closeOnResize = none := by
      rw [hstep.1]; exact hflag
    have ihs := ih (timedStep s e).1 hflag2 (fun e2 h2 => hes e2 (by simp [h2]))
    refine ⟨?_, ?_⟩
    · show (runTrace (timedStep s e).1 es).1.widget = s.widget
      rw [ihs.1, hstep.1]
    · show (timedStep s e).2 + (runTrace (timedStep s e).1 es).2 = 0
      rw [hstep.2, ihs.2]

/-- Claim C6 witness: with the attribute absent and the popover open,
a concrete run of resize dispatches and time performs no close. -/
theorem no_close_when_flag_unset_witness :
    (runTrace ⟨⟨some ⟨⟨none, none, none, none⟩, true⟩, true, none, true⟩, none⟩
        [TimedEvent.resize 0 ⟨⟨0, 0, 0, 0⟩, ⟨0, 0⟩⟩,
         TimedEvent.resize 30 ⟨⟨0, 0, 0, 0⟩, ⟨0, 0⟩⟩,
         TimedEvent.flush 400 ⟨⟨0, 0, 0, 0⟩, ⟨0, 0⟩⟩]).1.widget =
      ⟨some ⟨⟨none, none, none, none⟩, true⟩, true, none, true⟩ ∧
    (runTrace ⟨⟨some ⟨⟨none, none, none, none⟩, true⟩, true, none, true⟩, none⟩
        [TimedEvent.resize 0 ⟨⟨0, 0, 0, 0⟩, ⟨0, 0⟩⟩,
         TimedEvent.resize 30 ⟨⟨0, 0, 0, 0⟩, ⟨0, 0⟩⟩,
         TimedEvent.flush 400 ⟨⟨0, 0, 0, 0⟩, ⟨0, 0⟩⟩]).2 = 0 :=
  no_close_when_flag_unset
    ⟨⟨some ⟨⟨none, none, none, none⟩, true⟩, true, none, true⟩, none⟩
    [TimedEvent.resize 0 ⟨⟨0, 0, 0, 0⟩, ⟨0, 0⟩⟩,
     TimedEvent.resize 30 ⟨⟨0, 0, 0, 0⟩, ⟨0, 0⟩⟩,
     TimedEvent.flush 400 ⟨⟨0, 0, 0, 0⟩, ⟨0, 0⟩⟩] rfl (by decide)

/-! ### Absent popover ref -/

/-- Claim C10: when the popover ref is absent at attachment, no
`beforetoggle` handler exists, so any later event sequence that does not
rewrite the dataset entry — disclosure transitions of any popover, resize
dispatches, idle recomputes (each a no-op without the ref), passage of
time, teardown — leaves the widget state exactly at its attachment value
and performs no close and no listener attachment or detachment. -/
theorem absent_popover_inert (ht : Bool) (flag : Option String)
    (es : List TimedEvent) (hes : ∀ e ∈ es, isSetFlag e = false) :
    runTrace (connectInit none ht flag) es = (connectInit none ht flag, 0) := by
  have hstep : ∀ e : TimedEvent, isSetFlag e = false →
      timedStep (connectInit none ht flag) e = (connectInit none ht flag, 0) := by
    intro e he
    cases e with
    | resize t env => simp [timedStep, eventTime, eventEnv, fireIfDue, connectInit]
    | flush t env => simp [timedStep, eventTime, eventEnv, fireIfDue, connectInit]
    | toggle t b env =>
      simp [timedStep, eventTime, eventEnv, fireIfDue, connectInit, toggleStep]
    | idle t env =>
      simp [timedStep, eventTime, eventEnv, fireIfDue, connectInit, updatePosition]
    | setFlag t v env => simp [isSetFlag] at he
    | disconnect t env => simp [timedStep, eventTime, eventEnv, fireIfDue, connectInit]
  induction es with
  | nil => rfl
  | cons e es ih =>
    rw [runTrace_cons, hstep e (hes e (by simp))]
    simp [ih (fun e2 h2 => hes e2 (by simp [h2]))]

/-- Claim C10 witness: a concrete post-attachment life — open toggle,
resize, idle recompute, time, teardown — is completely inert when the
popover ref was absent. -/
theorem absent_popover_inert_witness :
    runTrace (connectInit none true none)
        [TimedEvent.toggle 0 true ⟨⟨1, 2, 3, 4⟩, ⟨100, 100⟩⟩,
         TimedEvent.resize 1 ⟨⟨1, 2, 3, 4⟩, ⟨100, 100⟩⟩,
         TimedEvent.idle 2 ⟨⟨1, 2, 3, 4⟩, ⟨100, 100⟩⟩,
         TimedEvent.flush 200 ⟨⟨1, 2, 3, 4⟩, ⟨100, 100⟩⟩,
         TimedEvent.disconnect 300 ⟨⟨1, 2, 3, 4⟩, ⟨100, 100⟩⟩] =
      (connectInit none true none, 0) :=
  absent_popover_inert true none
    [TimedEvent.toggle 0 true ⟨⟨1, 2, 3, 4⟩, ⟨100, 100⟩⟩,
     TimedEvent.resize 1 ⟨⟨1, 2, 3, 4⟩, ⟨100, 100⟩⟩,
     TimedEvent.idle 2 ⟨⟨1, 2, 3, 4⟩, ⟨100, 100⟩⟩,
     TimedEvent.flush 200 ⟨⟨1, 2, 3, 4⟩, ⟨100, 100⟩⟩,
     TimedEvent.disconnect 300 ⟨⟨1, 2, 3, 4⟩, ⟨100, 100⟩⟩] (by decide)

/-! ### When the dataset entry is read -/

/-- Claim C9 counterexample: adding the `data-close-on-resize` attribute
in its valueless boolean form — the usage shown in the component's own
doc example, whose dataset value is the empty string — between attachment
and the debounced firing does not change the handler's behavior: with the
popover open and a deadline scheduled, the firing closes nothing and the
popover stays open, exactly as when the attribute was never added. -/
theorem adding_empty_value_changes_nothing_cex :
    (runTrace ⟨⟨some ⟨⟨none, none, none, none⟩, true⟩, true, none, true⟩, some 100⟩
        [TimedEvent.setFlag 50 (some "") ⟨⟨0, 0, 0, 0⟩, ⟨0, 0⟩⟩,
         TimedEvent.flush 200 ⟨⟨0, 0, 0, 0⟩, ⟨0, 0⟩⟩]).2 = 0 ∧
    popoverOpen (runTrace ⟨⟨some ⟨⟨none, none, none, none⟩, true⟩, true, none, true⟩, some 100⟩
        [TimedEvent.setFlag 50 (some "") ⟨⟨0, 0, 0, 0⟩, ⟨0, 0⟩⟩,
         TimedEvent.flush 200 ⟨⟨0, 0, 0, 0⟩, ⟨0, 0⟩⟩]).1.widget = true ∧
    (runTrace ⟨⟨some ⟨⟨none, none, none, none⟩, true⟩, true, none, true⟩, some 100⟩
        [TimedEvent.flush 200 ⟨⟨0, 0, 0, 0⟩, ⟨0, 0⟩⟩]).2 = 0 ∧
    popoverOpen (runTrace ⟨⟨some ⟨⟨none, none, none, none⟩, true⟩, true, none, true⟩, some 100⟩
        [TimedEvent.flush 200 ⟨⟨0, 0, 0, 0⟩, ⟨0, 0⟩⟩]).1.widget = true := by
  decide

/-- Claim C9 (amended): the dataset entry is read at the moment the
debounced handler fires, not captured at initialization: whatever value
the widget held before, the close decision of a firing is exactly the
JavaScript truthiness of the value last written before that firing — so
removing the attribute or writing a non-empty value between attachment
and the firing changes the handler's behavior, while writing the empty
string (the valueless boolean-attribute form) counts as falsy. -/
theorem flag_read_at_fire_time (s : SysState) (t0 tf T : Nat) (env : Env)
    (v : Option String) (hp : s.pending = some tf) (ht0 : t0 < tf) (hT : tf ≤ T)
    (ho : popoverOpen s.widget = true) :
    (runTrace s [TimedEvent.setFlag t0 v env, TimedEvent.flush T env]).2 =
      if truthy v then 1 else 0 := by
  have hnt0 : ¬ (tf ≤ t0) := by omega
  have hstep1 : timedStep s (.setFlag t0 v env) =
      (⟨{ s.widget with closeOnResize := v }, some tf⟩, 0) := by
    simp [timedStep, eventTime, eventEnv, fireIfDue, hp, hnt0]
  rcases hpo : s.widget.popover with _ | p
  · simp [popoverOpen, hpo] at ho
  · have hop : p.isOpen = true := by simpa [popoverOpen, hpo] using ho
    have hstep2 : timedStep ⟨{ s.widget with closeOnResize := v }, some tf⟩
        (.flush T env) =
        (⟨(resizeFire env { s.widget with closeOnResize := v }).1, none⟩,
          (resizeFire env { s.widget with closeOnResize := v }).2) := by
      simp [timedStep, eventTime, eventEnv, fireIfDue, hT]
    have hcount : (runTrace s [TimedEvent.setFlag t0 v env, TimedEvent.flush T env]).2 =
        (resizeFire env { s.widget with closeOnResize := v }).2 := by
      rw [runTrace_cons, hstep1]
      show 0 + ((timedStep ⟨{ s.widget with closeOnResize := v }, some tf⟩
          (.flush T env)).2 + 0) = _
      rw [hstep2]
      simp
    rw [hcount]
    cases hv : truthy v
    · simp [resizeFire, hv, hpo, hop]
    · simp [resizeFire, hidePopover, hv, hpo, hop]

/-- Claim C9 witness: writing a non-empty value before the firing makes
that firing close the open popover exactly once. -/
theorem flag_read_at_fire_time_witness :
    (runTrace ⟨⟨some ⟨⟨none, none, none, none⟩, true⟩, true, none, true⟩, some 100⟩
        [TimedEvent.setFlag 50 (some "x") ⟨⟨0, 0, 0, 0⟩, ⟨0, 0⟩⟩,
         TimedEvent.flush 200 ⟨⟨0, 0, 0, 0⟩, ⟨0, 0⟩⟩]).2 = 1 :=
  (flag_read_at_fire_time
      ⟨⟨some ⟨⟨none, none, none, none⟩, true⟩, true, none, true⟩, some 100⟩
      50 100 200 ⟨⟨0, 0, 0, 0⟩, ⟨0, 0⟩⟩ (some "x") rfl (by omega) (by omega) rfl).trans
    (by decide)

end AnchoredPopover
